import Mathlib

/-!
# Verification of the todo-platform MCP client session/transport engine

Shallow embedding of `src/clients/todo-client-mcp-python/todoclientmcp.py`
(class `TodoMCPClient`): the event-stream reader, session establisher,
call correlator and tool-invocation facade.

Modelling conventions:
* The mutable fields of the Python object (`session_id`, `initialized`,
  `response_queue`, `stop_event`) become the record `ClientState`; every
  operation returns its result together with the post-state, since in Python
  the object retains its mutations even when the method raises.
* JSON values (produced by the `json.loads` collaborator) are the inductive
  `Json`; the decoder itself is a Python-stdlib collaborator, so the reader
  is parameterised by `parse : String → Option Json` standing for
  `json.loads` (`none` = `JSONDecodeError`).
* The blocking `queue.Queue.get(timeout=30)` is embedded as inspecting the
  list of messages that became available within the timeout window: an empty
  queue models "no message arrived within the response timeout".
* Network I/O (`requests`) is a collaborator: the HTTP status codes the
  server answers with are passed in as arguments, and the requests POSTed
  are recorded in a `Trace` so that "performs no network call" is provable.
* `connect` runs the background reader over the stream events the server
  emits and then polls for the session id, a fair linearisation of the
  Python thread interleaving for the properties considered here: the poll
  loop `while not self.session_id: ... sleep(0.01)` bounded by 10 s becomes
  `pollForSession` with a fuel of `connectPollBudget = 1000` iterations.
-/

/-- JSON values, the envelope wire format decoded by `json.loads`. -/
inductive Json where
  | null : Json
  | bool (b : Bool) : Json
  | num (n : Int) : Json
  | str (s : String) : Json
  | arr (elems : List Json) : Json
  | obj (fields : List (String × Json)) : Json
deriving Repr

/-- First binding of a key in a JSON object's field list (Python `dict` lookup;
`json.loads` produces dicts with distinct keys). -/
def lookupKey (fields : List (String × Json)) (k : String) : Option Json :=
  match fields with
  | [] => none
  | (k', v) :: rest => if k' = k then some v else lookupKey rest k

/-- Python truthiness of a JSON value (`if not content:` in `call_tool`). -/
def pyTruthy : Json → Bool
  | .null => false
  | .bool b => b
  | .num n => n != 0
  | .str s => s ≠ ""
  | .arr elems => !elems.isEmpty
  | .obj fields => !fields.isEmpty

/-- The client's error outcomes. Each constructor corresponds to one `raise`
site of `todoclientmcp.py` (all `MCPError` except `runtimeFault`, which stands
for the `TypeError`/`AttributeError`/`KeyError` Python itself raises when an
envelope is not dict-shaped where the code indexes into it). -/
inductive MCPErr where
  /-- "Failed to connect to SSE endpoint: {status}" (connect, GET not 200). -/
  | connectionFailed (status : Nat)
  /-- "Timeout waiting for endpoint event" (connect's 10 s session-id poll). -/
  | endpointTimeout
  /-- "Not connected. Call connect() first." (`_send_request` without session). -/
  | notConnected
  /-- "Request failed with status {status}" (POST status outside {200, 202}). -/
  | requestFailed (status : Nat)
  /-- "No response received within {timeout} seconds" (`_read_sse_response`). -/
  | responseTimeout (secs : Nat)
  /-- "Client not initialized. Call connect() first." (`call_tool`/`list_tools`). -/
  | notInitialized
  /-- "Initialize failed: {response['error']}" (`_initialize`). -/
  | initializeFailed (e : Json)
  /-- "Tool call failed: {response['error']}" (`call_tool`). -/
  | toolCallFailed (e : Json)
  /-- "tools/list failed: {response['error']}" (`list_tools`). -/
  | listToolsFailed (e : Json)
  /-- "No content in tool response" (`call_tool`, empty/falsy content). -/
  | noContent
  /-- A Python runtime exception (non-dict where a dict is required). -/
  | runtimeFault
deriving Repr

/-- Python membership `k in j` for a JSON value: key lookup on dicts, element
membership on lists, substring test on strings; `TypeError` otherwise. -/
def pyInOp (j : Json) (k : String) : Except MCPErr Bool :=
  match j with
  | .obj fields => .ok (lookupKey fields k).isSome
  | .arr elems => .ok (elems.any fun e => match e with | .str s => s = k | _ => false)
  | .str s => .ok (containsSub k.data s.data)
  | _ => .error .runtimeFault
where
  /-- `sep` occurs as a contiguous sublist of `cs`. -/
  containsSub (sep cs : List Char) : Bool :=
    match cs with
    | [] => sep.isEmpty
    | c :: rest => sep.isPrefixOf (c :: rest) || containsSub sep rest

/-- Python subscript `j[k]` with a string key: dict indexing (`KeyError` when
absent), `TypeError` on every non-dict value. -/
def pySubscript (j : Json) (k : String) : Except MCPErr Json :=
  match j with
  | .obj fields =>
    match lookupKey fields k with
    | some v => .ok v
    | none => .error .runtimeFault
  | _ => .error .runtimeFault

/-- Python `j.get(k, d)`: value of the key when present (even if falsy), the
default otherwise; `AttributeError` on non-dict values. -/
def pyDictGet (j : Json) (k : String) (d : Json) : Except MCPErr Json :=
  match j with
  | .obj fields => .ok ((lookupKey fields k).getD d)
  | _ => .error .runtimeFault

/-!
## Python string primitives

`str.strip()` and `'?sessionid=' in url` / `url.split('?sessionid=')[1]`,
implemented structurally on `List Char` so the kernel can evaluate them
(`String.trim`/`String.splitOn` are well-founded-recursive and do not reduce).
-/

/-- ASCII whitespace stripped by Python `str.strip()`. -/
def pySpace (c : Char) : Bool :=
  c = ' ' || c = '\t' || c = '\n' || c = '\x0d' || c = '\x0b' || c = '\x0c'

/-- Python `str.strip()`: drop leading and trailing whitespace. -/
def pyStrip (cs : List Char) : List Char :=
  ((cs.dropWhile pySpace).reverse.dropWhile pySpace).reverse

/-- The suffix of `cs` following the first occurrence of `sep`, or `none`
when `sep` does not occur (`sep` is nonempty at every use site). -/
def afterFirstSep (sep : List Char) : List Char → Option (List Char)
  | [] => if sep.isEmpty then some [] else none
  | c :: rest =>
    if sep.isPrefixOf (c :: rest) then some ((c :: rest).drop sep.length)
    else afterFirstSep sep rest

/-- The prefix of `cs` up to (excluding) the next occurrence of `sep`. -/
def takeUntilSep (sep : List Char) : List Char → List Char
  | [] => []
  | c :: rest =>
    if sep.isPrefixOf (c :: rest) then []
    else c :: takeUntilSep sep rest

/-- `_sse_reader`'s session-id extraction from an endpoint event's payload:
`endpoint_url = event.data.strip()`, and when `'?sessionid=' in endpoint_url`,
`endpoint_url.split('?sessionid=')[1]` — the segment between the first and
second occurrences of the separator; `none` when the test fails. -/
def extractSessionId (data : String) : Option String :=
  let sep := "?sessionid=".data
  let endpoint_url := pyStrip data.data
  match afterFirstSep sep endpoint_url with
  | some suffix => some (String.mk (takeUntilSep sep suffix))
  | none => none

/-!
## Client state and the event-stream reader
-/

/-- The mutable state of a `TodoMCPClient` object: `session_id` (None or a
string), `initialized`, the delivery sink `response_queue` (front = oldest),
and the `stop_event` flag. `__init__` is `initClient`. -/
structure ClientState where
  session_id : Option String
  initialized : Bool
  response_queue : List Json
  stop_event : Bool
deriving Repr

/-- `TodoMCPClient.__init__`: no session, not initialized, empty queue,
stop event unset. -/
def initClient : ClientState :=
  { session_id := none, initialized := false, response_queue := [], stop_event := false }

/-- One server-sent event as surfaced by the `sseclient` collaborator:
an event name and a data payload. -/
structure SSEEvent where
  event : String
  data : String
deriving Repr, DecidableEq

/-- Python truthiness of the `session_id` field (`while not self.session_id`,
`if not self.session_id`): set iff not None and not the empty string. -/
def sessionSet : Option String → Bool
  | none => false
  | some s => s ≠ ""

/-- One iteration of the `_sse_reader` loop body on event `ev` (after the stop
check): an `endpoint` event with truthy data stores the extracted session id
(overwriting any previous value); a `message` event with truthy data is decoded
by `parse` (= `json.loads`) and enqueued on success, logged and discarded on
failure; all other events are ignored. -/
def sseReaderStep (parse : String → Option Json) (st : ClientState) (ev : SSEEvent) :
    ClientState :=
  if ev.event = "endpoint" ∧ ev.data ≠ "" then
    match extractSessionId ev.data with
    | some sid => { st with session_id := some sid }
    | none => st
  else if ev.event = "message" ∧ ev.data ≠ "" then
    match parse ev.data with
    | some d => { st with response_queue := st.response_queue ++ [d] }
    | none => st
  else st

/-- `_sse_reader`: iterate over the stream's events; at the top of each
iteration, if `stop_event` is set, break before processing the event just
read. -/
def sseReader (parse : String → Option Json) : ClientState → List SSEEvent → ClientState
  | st, [] => st
  | st, ev :: rest =>
    if st.stop_event then st
    else sseReader parse (sseReaderStep parse st ev) rest

/-- The envelopes a reader run appends to the delivery sink, in stream order:
the successfully decoded payloads of the `message` events with truthy data. -/
def parsedMessages (parse : String → Option Json) (evs : List SSEEvent) : List Json :=
  evs.filterMap fun ev =>
    if ev.event = "message" ∧ ev.data ≠ "" then parse ev.data else none

/-!
## Call correlator (`_send_request` / `_read_sse_response`)
-/

/-- Response-wait bound of `_read_sse_response` (`timeout: float = 30.0`). -/
def responseTimeoutSecs : Nat := 30

/-- Connect-time bound on the session-id poll (`timeout = 10.0` seconds). -/
def connectTimeoutSecs : Nat := 10

/-- Poll iterations within the connect bound: 10 s of `time.sleep(0.01)`. -/
def connectPollBudget : Nat := 1000

/-- Network-effect trace of one operation: the JSON-RPC requests POSTed and
the number of blocking reads issued against the delivery sink. -/
structure Trace where
  posts : List Json
  sink_reads : Nat
deriving Repr

/-- `_send_request` followed by `_read_sse_response`: fail when the session id
is falsy; record the POST; fail when the server's POST status is outside
{200, 202}; then block on the delivery sink for up to `responseTimeoutSecs` —
an empty queue models no message arriving within the bound (`queue.Empty`),
otherwise the oldest queued envelope is dequeued and returned. -/
def send_request (st : ClientState) (postStatus : Nat) (req : Json) :
    Except MCPErr Json × ClientState × Trace :=
  if ¬ sessionSet st.session_id then
    (.error .notConnected, st, ⟨[], 0⟩)
  else if ¬ (postStatus = 200 ∨ postStatus = 202) then
    (.error (.requestFailed postStatus), st, ⟨[req], 0⟩)
  else
    match st.response_queue with
    | [] => (.error (.responseTimeout responseTimeoutSecs), st, ⟨[req], 1⟩)
    | r :: rest => (.ok r, { st with response_queue := rest }, ⟨[req], 1⟩)

/-!
## Tool invocation facade (`_initialize` / `call_tool` / `list_tools`)
-/

/-- The fixed JSON-RPC envelope `_initialize` sends. -/
def initializeRequest : Json :=
  .obj [("jsonrpc", .str "2.0"), ("id", .num 1), ("method", .str "initialize"),
        ("params", .obj
          [("protocolVersion", .str "2024-11-05"),
           ("capabilities", .obj [("tools", .obj [])]),
           ("clientInfo", .obj
             [("name", .str "todo-client-mcp-python"), ("version", .str "1.0.0")])])]

/-- The JSON-RPC envelope `call_tool` sends; `reqId` stands for the
`uuid.uuid4()` value. -/
def callToolRequest (reqId tool_name : String) (arguments : Json) : Json :=
  .obj [("jsonrpc", .str "2.0"), ("id", .str reqId), ("method", .str "tools/call"),
        ("params", .obj [("name", .str tool_name), ("arguments", arguments)])]

/-- The JSON-RPC envelope `list_tools` sends. -/
def listToolsRequest (reqId : String) : Json :=
  .obj [("jsonrpc", .str "2.0"), ("id", .str reqId), ("method", .str "tools/list"),
        ("params", .obj [])]

/-- `_initialize`'s handling of the dequeued envelope:
`if 'error' in response: raise MCPError(f"Initialize failed: ...")`. -/
def processInitResponse (response : Json) : Except MCPErr Unit := do
  let hasErr ← pyInOp response "error"
  if hasErr then
    let e ← pySubscript response "error"
    .error (.initializeFailed e)
  else
    .ok ()

/-- `call_tool`'s handling of the dequeued envelope: fail on an `error` field;
otherwise `result = response.get('result', {})`,
`content = result.get('content', [])`, fail with "No content in tool response"
when `content` is falsy, else return `content[0].get('text', '')`. -/
def processToolResponse (response : Json) : Except MCPErr Json := do
  let hasErr ← pyInOp response "error"
  if hasErr then
    let e ← pySubscript response "error"
    .error (.toolCallFailed e)
  else
    let result ← pyDictGet response "result" (.obj [])
    let content ← pyDictGet result "content" (.arr [])
    if ¬ pyTruthy content then .error .noContent
    else
      match content with
      | .arr (first :: _) => pyDictGet first "text" (.str "")
      | _ => .error .runtimeFault

/-- `list_tools`'s handling of the dequeued envelope: fail on an `error`
field; otherwise `response.get('result', {}).get('tools', [])`. -/
def processListToolsResponse (response : Json) : Except MCPErr Json := do
  let hasErr ← pyInOp response "error"
  if hasErr then
    let e ← pySubscript response "error"
    .error (.listToolsFailed e)
  else
    let result ← pyDictGet response "result" (.obj [])
    pyDictGet result "tools" (.arr [])

/-- `_initialize`: send the handshake envelope, fail if the correlated
response carries an `error` field, mark the session initialized otherwise. -/
def initializeOp (st : ClientState) (postStatus : Nat) :
    Except MCPErr Unit × ClientState × Trace :=
  match send_request st postStatus initializeRequest with
  | (.error e, st', tr) => (.error e, st', tr)
  | (.ok response, st', tr) =>
    match processInitResponse response with
    | .error e => (.error e, st', tr)
    | .ok _ => (.ok (), { st' with initialized := true }, tr)

/-- `call_tool`: refuse (before any network activity) when not initialized;
otherwise POST the invocation envelope, correlate the next sink message and
extract the first content item's text. -/
def call_tool (st : ClientState) (postStatus : Nat) (reqId tool_name : String)
    (arguments : Json) : Except MCPErr Json × ClientState × Trace :=
  if ¬ st.initialized then
    (.error .notInitialized, st, ⟨[], 0⟩)
  else
    match send_request st postStatus (callToolRequest reqId tool_name arguments) with
    | (.error e, st', tr) => (.error e, st', tr)
    | (.ok response, st', tr) => (processToolResponse response, st', tr)

/-- `list_tools`: refuse when not initialized; otherwise POST the `tools/list`
envelope, correlate the next sink message and return the tools list. -/
def list_tools (st : ClientState) (postStatus : Nat) (reqId : String) :
    Except MCPErr Json × ClientState × Trace :=
  if ¬ st.initialized then
    (.error .notInitialized, st, ⟨[], 0⟩)
  else
    match send_request st postStatus (listToolsRequest reqId) with
    | (.error e, st', tr) => (.error e, st', tr)
    | (.ok response, st', tr) => (processListToolsResponse response, st', tr)

/-!
## Session establisher (`connect` / `disconnect`)
-/

/-- `connect`'s busy-wait `while not self.session_id: if elapsed > 10: raise;
time.sleep(0.01)`. `trace t` is the value of the session-id field observed at
the `t`-th poll; the fuel counts the sleeps remaining inside the 10 s bound.
The session test precedes the timeout test, exactly as in the source. -/
def pollForSession (trace : Nat → Option String) : Nat → Nat → Except MCPErr String
  | t, 0 =>
    if sessionSet (trace t) then .ok ((trace t).getD "")
    else .error .endpointTimeout
  | t, fuel + 1 =>
    if sessionSet (trace t) then .ok ((trace t).getD "")
    else pollForSession trace (t + 1) fuel

/-- `connect`: fail unless the GET on the stream endpoint returns 200; start
the background reader over the server's stream events; poll for the session id
within the 10-second budget; then run the initialize handshake. The reader is
linearised before the poll: `evs` are the events the stream delivers, so a
server that never announces a session leaves `session_id` exactly as the
reader's final state has it. -/
def connect (st : ClientState) (getStatus : Nat) (parse : String → Option Json)
    (evs : List SSEEvent) (postStatus : Nat) :
    Except MCPErr Unit × ClientState × Trace :=
  if getStatus ≠ 200 then (.error (.connectionFailed getStatus), st, ⟨[], 0⟩)
  else
    match pollForSession (fun _ => (sseReader parse st evs).session_id) 0
        connectPollBudget with
    | .error e => (.error e, sseReader parse st evs, ⟨[], 0⟩)
    | .ok _ => initializeOp (sseReader parse st evs) postStatus

/-- `disconnect`: set the stop event (it is never cleared anywhere), drop the
stream client, reset `session_id` and `initialized`. The queue is untouched. -/
def disconnect (st : ClientState) : ClientState :=
  { st with stop_event := true, session_id := none, initialized := false }

/-!
## Helper lemmas about the reader and the poll loop
-/

/-- A single reader iteration never touches the stop flag. -/
theorem sseReaderStep_stop_event (parse : String → Option Json) (st : ClientState)
    (ev : SSEEvent) : (sseReaderStep parse st ev).stop_event = st.stop_event := by
  unfold sseReaderStep
  split
  · split <;> rfl
  · split
    · split <;> rfl
    · rfl

/-- A single reader iteration never touches the initialized flag. -/
theorem sseReaderStep_initialized (parse : String → Option Json) (st : ClientState)
    (ev : SSEEvent) : (sseReaderStep parse st ev).initialized = st.initialized := by
  unfold sseReaderStep
  split
  · split <;> rfl
  · split
    · split <;> rfl
    · rfl

/-- The reader loop never touches the stop flag. -/
theorem sseReader_stop_event (parse : String → Option Json) (evs : List SSEEvent)
    (st : ClientState) : (sseReader parse st evs).stop_event = st.stop_event := by
  induction evs generalizing st with
  | nil => rfl
  | cons ev rest ih =>
    unfold sseReader
    split
    · rfl
    · rw [ih, sseReaderStep_stop_event]

/-- With the stop flag set, the reader exits at its first event without
processing it: the state is returned unchanged whatever the stream holds. -/
theorem sseReader_stopped (parse : String → Option Json) (st : ClientState)
    (evs : List SSEEvent) (h : st.stop_event = true) : sseReader parse st evs = st := by
  cases evs with
  | nil => rfl
  | cons ev rest => unfold sseReader; simp [h]

/-- Only `endpoint` events can change the session-id field. -/
theorem sseReaderStep_session_of_ne_endpoint (parse : String → Option Json)
    (st : ClientState) (ev : SSEEvent) (h : ev.event ≠ "endpoint") :
    (sseReaderStep parse st ev).session_id = st.session_id := by
  unfold sseReaderStep
  rw [if_neg (by simp [h])]
  split
  · split <;> rfl
  · rfl

/-- A stream with no `endpoint` event leaves the session-id field exactly as
it was. -/
theorem sseReader_session_of_no_endpoint (parse : String → Option Json)
    (evs : List SSEEvent) (st : ClientState)
    (h : ∀ ev ∈ evs, ev.event ≠ "endpoint") :
    (sseReader parse st evs).session_id = st.session_id := by
  induction evs generalizing st with
  | nil => rfl
  | cons ev rest ih =>
    unfold sseReader
    split
    · rfl
    · rw [ih _ fun e he => h e (List.mem_cons_of_mem ev he),
        sseReaderStep_session_of_ne_endpoint _ _ _ (h ev (List.mem_cons_self ev rest))]

/-- When the polled session-id field never becomes truthy, the poll loop
exhausts its budget and fails with the endpoint timeout, whatever the budget. -/
theorem pollForSession_never_set (v : Option String) (hv : sessionSet v = false) :
    ∀ t fuel, pollForSession (fun _ => v) t fuel = .error .endpointTimeout := by
  intro t fuel
  induction fuel generalizing t with
  | zero => unfold pollForSession; simp [hv]
  | succ n ih =>
    unfold pollForSession
    simpa [hv] using ih (t + 1)

/-- The envelope a single reader iteration appends to the delivery sink. -/
theorem sseReaderStep_queue (parse : String → Option Json) (st : ClientState)
    (ev : SSEEvent) :
    (sseReaderStep parse st ev).response_queue =
      st.response_queue ++ parsedMessages parse [ev] := by
  unfold sseReaderStep parsedMessages
  by_cases hend : ev.event = "endpoint" ∧ ev.data ≠ ""
  · rw [if_pos hend]
    have hne : ¬ (ev.event = "message" ∧ ev.data ≠ "") := by
      rintro ⟨hm, -⟩; rw [hend.1] at hm; exact absurd hm (by decide)
    split <;> simp [List.filterMap, hne]
  · rw [if_neg hend]
    by_cases hmsg : ev.event = "message" ∧ ev.data ≠ ""
    · rw [if_pos hmsg]
      cases hp : parse ev.data <;> simp [List.filterMap, hmsg, hp]
    · rw [if_neg hmsg]
      simp [List.filterMap, hmsg]

/-- A running reader (stop flag clear) appends to the delivery sink exactly the
successfully decoded payload-message envelopes, in stream order. -/
theorem sseReader_queue (parse : String → Option Json) (evs : List SSEEvent)
    (st : ClientState) (h : st.stop_event = false) :
    (sseReader parse st evs).response_queue =
      st.response_queue ++ parsedMessages parse evs := by
  induction evs generalizing st with
  | nil => simp [sseReader, parsedMessages]
  | cons ev rest ih =>
    unfold sseReader
    rw [if_neg (by simp [h])]
    rw [ih _ (by rw [sseReaderStep_stop_event]; exact h), sseReaderStep_queue]
    have : parsedMessages parse (ev :: rest) =
        parsedMessages parse [ev] ++ parsedMessages parse rest := by
      unfold parsedMessages
      cases hp : (if ev.event = "message" ∧ ev.data ≠ "" then parse ev.data else none) <;>
        simp [List.filterMap_cons, hp]
    rw [this, List.append_assoc]

/-!
## Claims
-/

/-- C1 (counterexample): the claim says processing a subsequent
session-announcement event does not change an already-set session id, but the
reader overwrites the field on every endpoint event carrying a session-id
parameter: after announcements for sessions `a` then `b`, the field holds
`b`, not the first-written `a`. -/
theorem C1_counterexample :
    (sseReaderStep (fun _ => none) initClient
        ⟨"endpoint", "/sse?sessionid=a"⟩).session_id = some "a" ∧
    (sseReaderStep (fun _ => none)
        (sseReaderStep (fun _ => none) initClient ⟨"endpoint", "/sse?sessionid=a"⟩)
        ⟨"endpoint", "/sse?sessionid=b"⟩).session_id = some "b" ∧
    some "b" ≠ some "a" := by
  refine ⟨rfl, rfl, by decide⟩

/-- C1 (amended): after the first session-announcement event whose payload
contains a session-id parameter is processed, the field equals the extracted
value — but with overwrite semantics: the same assignment happens from any
prior state, so a subsequent identical announcement is a value-level no-op
while an announcement with a different extracted id replaces the field; an
announcement without the parameter leaves the field unchanged. -/
theorem C1_session_overwrite (parse : String → Option Json) (st : ClientState)
    (ev : SSEEvent) (sid : String)
    (hev : ev.event = "endpoint") (hd : ev.data ≠ "")
    (hx : extractSessionId ev.data = some sid) :
    (sseReaderStep parse st ev).session_id = some sid ∧
    sseReaderStep parse (sseReaderStep parse st ev) ev = sseReaderStep parse st ev ∧
    ∀ ev' : SSEEvent, ev'.event = "endpoint" → extractSessionId ev'.data = none →
      (sseReaderStep parse st ev').session_id = st.session_id := by
  refine ⟨?_, ?_, ?_⟩
  · simp [sseReaderStep, hev, hd, hx]
  · simp [sseReaderStep, hev, hd, hx]
  · intro ev' hev' hx'
    by_cases hd' : ev'.data = ""
    · simp [sseReaderStep, hev', hd']
    · simp [sseReaderStep, hev', hd', hx']

/-- C1 (witness for the amended theorem), at the announcement
`/sse?sessionid=a` processed from the fresh client state. -/
theorem C1_session_overwrite_witness :
    extractSessionId "/sse?sessionid=a" = some "a" ∧
    (sseReaderStep (fun _ => none) initClient
        ⟨"endpoint", "/sse?sessionid=a"⟩).session_id = some "a" := by
  refine ⟨rfl, ?_⟩
  exact (C1_session_overwrite (fun _ => none) initClient
    ⟨"endpoint", "/sse?sessionid=a"⟩ "a" rfl (by decide) rfl).1

/-- C2: after `disconnect`, the stop flag is set (and nothing ever clears it),
so a restarted reader exits at its first event without processing anything:
the session id is never populated, nothing is pushed to the delivery sink, and
a subsequent `connect` fails with the endpoint-wait timeout after the
10-second poll budget — it never yields a usable session, whatever status the
stream GET returns. -/
theorem C2_connect_after_disconnect (st : ClientState) (parse : String → Option Json)
    (evs : List SSEEvent) (postStatus : Nat) :
    (disconnect st).stop_event = true ∧
    sseReader parse (disconnect st) evs = disconnect st ∧
    (sseReader parse (disconnect st) evs).session_id = none ∧
    (sseReader parse (disconnect st) evs).response_queue = st.response_queue ∧
    connect (disconnect st) 200 parse evs postStatus =
      (.error .endpointTimeout, disconnect st, ⟨[], 0⟩) ∧
    ∀ getStatus : Nat,
      (connect (disconnect st) getStatus parse evs postStatus).1 ≠ .ok () := by
  have hrd : sseReader parse (disconnect st) evs = disconnect st :=
    sseReader_stopped _ _ _ rfl
  have hconn : connect (disconnect st) 200 parse evs postStatus =
      (.error .endpointTimeout, disconnect st, ⟨[], 0⟩) := by
    unfold connect
    rw [if_neg (by decide), hrd]
    rw [pollForSession_never_set (disconnect st).session_id rfl]
  refine ⟨rfl, hrd, by rw [hrd]; rfl, by rw [hrd]; rfl, hconn, ?_⟩
  intro getStatus
  by_cases hg : getStatus = 200
  · subst hg; rw [hconn]; simp
  · unfold connect; rw [if_pos hg]; simp

/-- C4: with the initialized flag false, `call_tool` fails with the
not-initialized state error before doing anything: no request is POSTed, the
delivery sink is not read, and the client state is unchanged. -/
theorem C4_uninitialized_refused (st : ClientState) (postStatus : Nat)
    (reqId tool_name : String) (args : Json) (h : st.initialized = false) :
    call_tool st postStatus reqId tool_name args = (.error .notInitialized, st, ⟨[], 0⟩) := by
  unfold call_tool
  simp [h]

/-- C4 (witness): a fresh client refuses `call_tool` with no network trace. -/
theorem C4_uninitialized_refused_witness :
    call_tool initClient 202 "r1" "add_todo" (.obj []) =
      (.error .notInitialized, initClient, ⟨[], 0⟩) :=
  C4_uninitialized_refused initClient 202 "r1" "add_todo" (.obj []) rfl

/-- C6: once the POST is acknowledged with an accepted status (200 or 202),
the correlator blocks on the delivery sink for up to the 30-second response
timeout: an empty sink (no message within the bound) fails the call with the
timeout error, and an available message is dequeued and returned. -/
theorem C6_response_wait (st : ClientState) (postStatus : Nat) (req : Json)
    (hs : sessionSet st.session_id = true)
    (hp : postStatus = 200 ∨ postStatus = 202) :
    (st.response_queue = [] →
      send_request st postStatus req =
        (.error (.responseTimeout responseTimeoutSecs), st, ⟨[req], 1⟩)) ∧
    ∀ r rest, st.response_queue = r :: rest →
      send_request st postStatus req =
        (.ok r, { st with response_queue := rest }, ⟨[req], 1⟩) := by
  constructor
  · intro hq
    unfold send_request
    rw [if_neg (by simp [hs]), if_neg (not_not_intro hp), hq]
  · intro r rest hq
    unfold send_request
    rw [if_neg (by simp [hs]), if_neg (not_not_intro hp), hq]

/-- C6 (witness): with session `s` established, an empty sink times out with
the 30-second bound and a one-element sink returns that envelope. -/
theorem C6_response_wait_witness :
    send_request
        { session_id := some "s", initialized := true, response_queue := [],
          stop_event := false } 202 (.obj []) =
      (.error (.responseTimeout responseTimeoutSecs),
        { session_id := some "s", initialized := true, response_queue := [],
          stop_event := false }, ⟨[.obj []], 1⟩) ∧
    send_request
        { session_id := some "s", initialized := true, response_queue := [.null],
          stop_event := false } 202 (.obj []) =
      (.ok .null,
        { session_id := some "s", initialized := true, response_queue := [],
          stop_event := false }, ⟨[.obj []], 1⟩) := by
  constructor
  · exact (C6_response_wait
      { session_id := some "s", initialized := true, response_queue := [],
        stop_event := false } 202 (.obj []) (by decide) (Or.inr rfl)).1 rfl
  · exact (C6_response_wait
      { session_id := some "s", initialized := true, response_queue := [.null],
        stop_event := false } 202 (.obj []) (by decide) (Or.inr rfl)).2 .null [] rfl

/-- C7: against a server that never emits the session-announcement event,
`connect` polls for the session id until the 10-second budget is exhausted
(the poll fails for every fuel value when the field is never set), fails with
the endpoint-wait timeout, and does not signal the reader to stop — the stop
flag is exactly as it was. -/
theorem C7_no_announcement (st : ClientState) (parse : String → Option Json)
    (evs : List SSEEvent) (postStatus : Nat)
    (hsid : st.session_id = none)
    (hevs : ∀ ev ∈ evs, ev.event ≠ "endpoint") :
    connect st 200 parse evs postStatus =
      (.error .endpointTimeout, sseReader parse st evs, ⟨[], 0⟩) ∧
    (sseReader parse st evs).stop_event = st.stop_event ∧
    ∀ t fuel, pollForSession (fun _ => (sseReader parse st evs).session_id) t fuel =
      .error .endpointTimeout := by
  have hsess : (sseReader parse st evs).session_id = none := by
    rw [sseReader_session_of_no_endpoint parse evs st hevs, hsid]
  have hpoll : ∀ t fuel,
      pollForSession (fun _ => (sseReader parse st evs).session_id) t fuel =
        .error .endpointTimeout := by
    rw [hsess]; exact pollForSession_never_set none rfl
  refine ⟨?_, sseReader_stop_event parse evs st, hpoll⟩
  unfold connect
  rw [if_neg (by decide), hpoll 0 connectPollBudget]

/-- C7 (witness): a fresh client connecting to a server that only emits
payload-message events times out and leaves the stop flag clear. -/
theorem C7_no_announcement_witness :
    connect initClient 200 (fun _ => none) [⟨"message", "x"⟩] 202 =
      (.error .endpointTimeout, sseReader (fun _ => none) initClient [⟨"message", "x"⟩],
        ⟨[], 0⟩) ∧
    (sseReader (fun _ => none) initClient [⟨"message", "x"⟩]).stop_event = false := by
  have h := C7_no_announcement initClient (fun _ => none) [⟨"message", "x"⟩] 202 rfl
    (by intro ev hev; simp at hev; subst hev; decide)
  exact ⟨h.1, h.2.1⟩

/-- C8: a payload-message event whose data fails to decode is logged and
discarded: the state (in particular the sink) is unchanged by that event, the
reader loop goes on to process the rest of the stream exactly as if the
malformed event had not been there, and the decoded payloads of the remaining
well-formed events are still appended to the sink in stream order. -/
theorem C8_malformed_event_discarded (parse : String → Option Json) (st : ClientState)
    (bad : SSEEvent) (rest : List SSEEvent)
    (hstop : st.stop_event = false)
    (hbad : bad.event = "message") (hdata : bad.data ≠ "")
    (hparse : parse bad.data = none) :
    sseReaderStep parse st bad = st ∧
    sseReader parse st (bad :: rest) = sseReader parse st rest ∧
    (sseReader parse st (bad :: rest)).response_queue =
      st.response_queue ++ parsedMessages parse rest := by
  have hstep : sseReaderStep parse st bad = st := by
    simp [sseReaderStep, hbad, hdata, hparse]
  have hloop : sseReader parse st (bad :: rest) = sseReader parse st rest := by
    unfold sseReader
    rw [if_neg (by simp [hstop]), hstep]
    cases rest <;> rfl
  exact ⟨hstep, hloop, by rw [hloop, sseReader_queue parse rest st hstop]⟩

/-- C8 (witness): a malformed frame between two well-formed frames is dropped
while both well-formed payloads reach the sink in order. -/
theorem C8_malformed_event_discarded_witness :
    (sseReader
        (fun d => if d = "bad" then none else some (.str d))
        initClient
        [⟨"message", "bad"⟩, ⟨"message", "a"⟩, ⟨"message", "b"⟩]).response_queue =
      [.str "a", .str "b"] := by
  have h := C8_malformed_event_discarded
    (fun d => if d = "bad" then none else some (.str d)) initClient
    ⟨"message", "bad"⟩ [⟨"message", "a"⟩, ⟨"message", "b"⟩]
    rfl rfl (by decide) rfl
  rw [h.2.2]
  rfl

/-!
## Helper lemmas about the correlator and facade operations
-/

/-- An accepted POST with an empty sink fails with the response timeout and
leaves the state untouched. -/
theorem send_request_timeout (st : ClientState) (postStatus : Nat) (req : Json)
    (hs : sessionSet st.session_id = true)
    (hp : postStatus = 200 ∨ postStatus = 202) (hq : st.response_queue = []) :
    send_request st postStatus req =
      (.error (.responseTimeout responseTimeoutSecs), st, ⟨[req], 1⟩) := by
  unfold send_request
  rw [if_neg (by simp [hs]), if_neg (not_not_intro hp), hq]

/-- An accepted POST with a non-empty sink dequeues and returns the oldest
envelope. -/
theorem send_request_ok (st : ClientState) (postStatus : Nat) (req r : Json)
    (rest : List Json) (hs : sessionSet st.session_id = true)
    (hp : postStatus = 200 ∨ postStatus = 202)
    (hq : st.response_queue = r :: rest) :
    send_request st postStatus req =
      (.ok r, { st with response_queue := rest }, ⟨[req], 1⟩) := by
  unfold send_request
  rw [if_neg (by simp [hs]), if_neg (not_not_intro hp), hq]

/-- On an initialized client, `call_tool` with an empty sink times out. -/
theorem call_tool_timeout (st : ClientState) (postStatus : Nat)
    (reqId tool_name : String) (args : Json)
    (hinit : st.initialized = true) (hs : sessionSet st.session_id = true)
    (hp : postStatus = 200 ∨ postStatus = 202) (hq : st.response_queue = []) :
    call_tool st postStatus reqId tool_name args =
      (.error (.responseTimeout responseTimeoutSecs), st,
        ⟨[callToolRequest reqId tool_name args], 1⟩) := by
  unfold call_tool
  rw [if_neg (by simp [hinit]),
    send_request_timeout st postStatus (callToolRequest reqId tool_name args) hs hp hq]

/-- On an initialized client, `call_tool` dequeues the oldest sink envelope —
whatever it is, with no id matching — and its outcome is that envelope's
extraction. -/
theorem call_tool_response (st : ClientState) (postStatus : Nat)
    (reqId tool_name : String) (args : Json) (r : Json) (rest : List Json)
    (hinit : st.initialized = true) (hs : sessionSet st.session_id = true)
    (hp : postStatus = 200 ∨ postStatus = 202)
    (hq : st.response_queue = r :: rest) :
    call_tool st postStatus reqId tool_name args =
      (processToolResponse r, { st with response_queue := rest },
        ⟨[callToolRequest reqId tool_name args], 1⟩) := by
  unfold call_tool
  rw [if_neg (by simp [hinit]),
    send_request_ok st postStatus (callToolRequest reqId tool_name args) r rest hs hp hq]

/-- On an initialized client, `list_tools` dequeues the oldest sink envelope
and its outcome is that envelope's extraction. -/
theorem list_tools_response (st : ClientState) (postStatus : Nat) (reqId : String)
    (r : Json) (rest : List Json)
    (hinit : st.initialized = true) (hs : sessionSet st.session_id = true)
    (hp : postStatus = 200 ∨ postStatus = 202)
    (hq : st.response_queue = r :: rest) :
    list_tools st postStatus reqId =
      (processListToolsResponse r, { st with response_queue := rest },
        ⟨[listToolsRequest reqId], 1⟩) := by
  unfold list_tools
  rw [if_neg (by simp [hinit]),
    send_request_ok st postStatus (listToolsRequest reqId) r rest hs hp hq]

/-- `_initialize` on a dequeued envelope that carries an `error` field fails
with the initialize-failed error. -/
theorem initializeOp_error_envelope (st : ClientState) (postStatus : Nat)
    (fields : List (String × Json)) (e : Json) (rest : List Json)
    (hs : sessionSet st.session_id = true)
    (hp : postStatus = 200 ∨ postStatus = 202)
    (hq : st.response_queue = .obj fields :: rest)
    (he : lookupKey fields "error" = some e) :
    initializeOp st postStatus =
      (.error (.initializeFailed e), { st with response_queue := rest },
        ⟨[initializeRequest], 1⟩) := by
  unfold initializeOp
  rw [send_request_ok st postStatus initializeRequest (.obj fields) rest hs hp hq]
  simp [processInitResponse, pyInOp, pySubscript, he, Bind.bind, Except.bind]

/-- `processToolResponse` on an error-free object envelope whose result's
content list starts with an object item returns that first item's `text`
value, or the empty string when the key is missing. -/
theorem processToolResponse_first_item (fields rfields xfields : List (String × Json))
    (xs : List Json)
    (hnoerr : lookupKey fields "error" = none)
    (hres : lookupKey fields "result" = some (.obj rfields))
    (hcont : lookupKey rfields "content" = some (.arr (.obj xfields :: xs))) :
    processToolResponse (.obj fields) =
      .ok ((lookupKey xfields "text").getD (.str "")) := by
  simp [processToolResponse, pyInOp, pySubscript, pyDictGet, pyTruthy,
    hnoerr, hres, hcont, Bind.bind, Except.bind]

/-- C3 (counterexample): a response envelope answering request id `call-1`,
used to exhibit that the correlator does no id matching. -/
def staleEnvelope : Json :=
  .obj [("jsonrpc", .str "2.0"), ("id", .str "call-1"),
        ("result", .obj [("content", .arr [.obj [("text", .str "stale-result")]])])]

/-- C3 (counterexample): a call with request id `call-1` times out on an empty
sink; its matching response (id `call-1`) then arrives on the stream and is
queued; the next, different call (id `call-2`, another tool) dequeues it and
silently returns its content as if it were its own response — contradicting
the claim that a stale late arrival is not treated as the response to a later,
different call. -/
theorem C3_counterexample :
    (call_tool
        { session_id := some "s", initialized := true, response_queue := [],
          stop_event := false } 202 "call-1" "add_todo" (.obj [])).1 =
      .error (.responseTimeout 30) ∧
    (sseReaderStep (fun d => if d = "late-frame" then some staleEnvelope else none)
        { session_id := some "s", initialized := true, response_queue := [],
          stop_event := false } ⟨"message", "late-frame"⟩).response_queue =
      [staleEnvelope] ∧
    (call_tool
        { session_id := some "s", initialized := true,
          response_queue := [staleEnvelope], stop_event := false }
        202 "call-2" "get_todos" (.obj [])).1 = .ok (.str "stale-result") := by
  refine ⟨rfl, rfl, rfl⟩

/-- C3 (amended): after a call times out on the sink, the client state is
unchanged, so the correlator is usable for a subsequent call; but if the
timed-out call's response later arrives on the sink, the next call — whatever
its request id and tool — dequeues that stale envelope and silently treats it
as its own response (the correlator does no id matching). -/
theorem C3_timeout_then_stale (st : ClientState) (reqId tool_name : String)
    (args : Json) (hinit : st.initialized = true)
    (hs : sessionSet st.session_id = true) (hq : st.response_queue = []) :
    call_tool st 202 reqId tool_name args =
      (.error (.responseTimeout responseTimeoutSecs), st,
        ⟨[callToolRequest reqId tool_name args], 1⟩) ∧
    ∀ (stale : Json) (reqId' tool_name' : String) (args' : Json),
      (call_tool { st with response_queue := [stale] } 202 reqId' tool_name' args').1 =
        processToolResponse stale := by
  constructor
  · exact call_tool_timeout st 202 reqId tool_name args hinit hs (Or.inr rfl) hq
  · intro stale reqId' tool_name' args'
    rw [call_tool_response { st with response_queue := [stale] } 202 reqId' tool_name'
      args' stale [] hinit hs (Or.inr rfl) rfl]

/-- C3 (witness for the amended theorem): the timed-out call leaves the state
unchanged and the stale envelope is handed to the next call. -/
theorem C3_timeout_then_stale_witness :
    (call_tool
        { session_id := some "s", initialized := true, response_queue := [],
          stop_event := false } 202 "call-1" "add_todo" (.obj [])) =
      (.error (.responseTimeout responseTimeoutSecs),
        { session_id := some "s", initialized := true, response_queue := [],
          stop_event := false },
        ⟨[callToolRequest "call-1" "add_todo" (.obj [])], 1⟩) ∧
    (call_tool
        { session_id := some "s", initialized := true,
          response_queue := [staleEnvelope], stop_event := false }
        202 "call-2" "get_todos" (.obj [])).1 = processToolResponse staleEnvelope := by
  have h := C3_timeout_then_stale
    { session_id := some "s", initialized := true, response_queue := [],
      stop_event := false } "call-1" "add_todo" (.obj []) rfl (by decide) rfl
  exact ⟨h.1, h.2 staleEnvelope "call-2" "get_todos" (.obj [])⟩

/-- C5: a dequeued response envelope carrying an `error` field makes each of
the three facade operations fail with its corresponding error kind —
initialize-failed, tool-call-failed, tools/list-failed — and never return a
result value. -/
theorem C5_error_envelope (st : ClientState) (postStatus : Nat)
    (fields : List (String × Json)) (e : Json) (rest : List Json)
    (reqId tool_name : String) (args : Json)
    (hs : sessionSet st.session_id = true)
    (hp : postStatus = 200 ∨ postStatus = 202)
    (hq : st.response_queue = .obj fields :: rest)
    (he : lookupKey fields "error" = some e) :
    (initializeOp st postStatus).1 = .error (.initializeFailed e) ∧
    (st.initialized = true →
      (call_tool st postStatus reqId tool_name args).1 = .error (.toolCallFailed e)) ∧
    (st.initialized = true →
      (list_tools st postStatus reqId).1 = .error (.listToolsFailed e)) := by
  refine ⟨?_, fun hinit => ?_, fun hinit => ?_⟩
  · rw [initializeOp_error_envelope st postStatus fields e rest hs hp hq he]
  · rw [call_tool_response st postStatus reqId tool_name args (.obj fields) rest
      hinit hs hp hq]
    simp [processToolResponse, pyInOp, pySubscript, he, Bind.bind, Except.bind]
  · rw [list_tools_response st postStatus reqId (.obj fields) rest hinit hs hp hq]
    simp [processListToolsResponse, pyInOp, pySubscript, he, Bind.bind, Except.bind]

/-- C5 (witness): the envelope `{"error": "boom"}` fails all three
operations with their corresponding error kinds. -/
theorem C5_error_envelope_witness :
    (initializeOp
        { session_id := some "s", initialized := true,
          response_queue := [.obj [("error", .str "boom")]], stop_event := false }
        202).1 = .error (.initializeFailed (.str "boom")) ∧
    (call_tool
        { session_id := some "s", initialized := true,
          response_queue := [.obj [("error", .str "boom")]], stop_event := false }
        202 "r1" "add_todo" (.obj [])).1 = .error (.toolCallFailed (.str "boom")) ∧
    (list_tools
        { session_id := some "s", initialized := true,
          response_queue := [.obj [("error", .str "boom")]], stop_event := false }
        202 "r2").1 = .error (.listToolsFailed (.str "boom")) := by
  have h := C5_error_envelope
    { session_id := some "s", initialized := true,
      response_queue := [.obj [("error", .str "boom")]], stop_event := false }
    202 [("error", .str "boom")] (.str "boom") [] "r1" "add_todo" (.obj [])
    (by decide) (Or.inr rfl) rfl rfl
  exact ⟨h.1, h.2.1 rfl, h.2.2 rfl⟩

/-- C9: on a connected, initialized client, a success envelope whose result
carries a non-empty content sequence makes `call_tool` return the `text` of
the first content item only — the tail of the sequence is ignored. -/
theorem C9_first_content_text (st : ClientState) (reqId tool_name : String)
    (args : Json) (fields rfields xfields : List (String × Json)) (xs : List Json)
    (rest : List Json) (t : Json)
    (hinit : st.initialized = true) (hs : sessionSet st.session_id = true)
    (hq : st.response_queue = .obj fields :: rest)
    (hnoerr : lookupKey fields "error" = none)
    (hres : lookupKey fields "result" = some (.obj rfields))
    (hcont : lookupKey rfields "content" = some (.arr (.obj xfields :: xs)))
    (htext : lookupKey xfields "text" = some t) :
    (call_tool st 202 reqId tool_name args).1 = .ok t := by
  rw [call_tool_response st 202 reqId tool_name args (.obj fields) rest hinit hs
    (Or.inr rfl) hq]
  rw [processToolResponse_first_item fields rfields xfields xs hnoerr hres hcont]
  rw [htext]
  rfl

/-- C9 (witness): the spec's end-to-end scenario — the server answers
`{"result": {"content": [{"text": "ok:1"}]}}` and `call_tool` returns
`"ok:1"`. -/
theorem C9_first_content_text_witness :
    (call_tool
        { session_id := some "s", initialized := true,
          response_queue := [.obj [("result", .obj [("content",
            .arr [.obj [("text", .str "ok:1")]])])]], stop_event := false }
        202 "r1" "add-item" (.obj [("title", .str "milk")])).1 = .ok (.str "ok:1") :=
  C9_first_content_text
    { session_id := some "s", initialized := true,
      response_queue := [.obj [("result", .obj [("content",
        .arr [.obj [("text", .str "ok:1")]])])]], stop_event := false }
    "r1" "add-item" (.obj [("title", .str "milk")])
    [("result", .obj [("content", .arr [.obj [("text", .str "ok:1")]])])]
    [("content", .arr [.obj [("text", .str "ok:1")]])]
    [("text", .str "ok:1")] [] [] (.str "ok:1")
    rfl (by decide) rfl rfl rfl rfl rfl

/-- C10: on a success envelope (no `error` field), an absent result, an absent
content key, or an empty content list each make `call_tool` fail with the
no-content error instead of returning a value; and a first content item that
is an object without a `text` key yields the empty string rather than a
failure. -/
theorem C10_no_content_and_missing_text (st : ClientState) (reqId tool_name : String)
    (args : Json) (fields : List (String × Json)) (rest : List Json)
    (hinit : st.initialized = true) (hs : sessionSet st.session_id = true)
    (hq : st.response_queue = .obj fields :: rest)
    (hnoerr : lookupKey fields "error" = none) :
    (lookupKey fields "result" = none →
      (call_tool st 202 reqId tool_name args).1 = .error .noContent) ∧
    (∀ rfields, lookupKey fields "result" = some (.obj rfields) →
      lookupKey rfields "content" = none →
      (call_tool st 202 reqId tool_name args).1 = .error .noContent) ∧
    (∀ rfields, lookupKey fields "result" = some (.obj rfields) →
      lookupKey rfields "content" = some (.arr []) →
      (call_tool st 202 reqId tool_name args).1 = .error .noContent) ∧
    (∀ rfields xfields xs, lookupKey fields "result" = some (.obj rfields) →
      lookupKey rfields "content" = some (.arr (.obj xfields :: xs)) →
      lookupKey xfields "text" = none →
      (call_tool st 202 reqId tool_name args).1 = .ok (.str "")) := by
  have hct := call_tool_response st 202 reqId tool_name args (.obj fields) rest hinit
    hs (Or.inr rfl) hq
  refine ⟨fun hres => ?_, fun rfields hres hcont => ?_, fun rfields hres hcont => ?_,
    fun rfields xfields xs hres hcont htext => ?_⟩
  · rw [hct]
    simp [processToolResponse, pyInOp, pySubscript, pyDictGet, pyTruthy, lookupKey,
      hnoerr, hres, Bind.bind, Except.bind]
  · rw [hct]
    simp [processToolResponse, pyInOp, pySubscript, pyDictGet, pyTruthy, lookupKey,
      hnoerr, hres, hcont, Bind.bind, Except.bind]
  · rw [hct]
    simp [processToolResponse, pyInOp, pySubscript, pyDictGet, pyTruthy, lookupKey,
      hnoerr, hres, hcont, Bind.bind, Except.bind]
  · rw [hct, processToolResponse_first_item fields rfields xfields xs hnoerr hres hcont,
      htext]
    rfl

/-- C10 (witness): `{"result": {"content": []}}` fails with the no-content
error and `{"result": {"content": [{}]}}` returns the empty string. -/
theorem C10_no_content_and_missing_text_witness :
    (call_tool
        { session_id := some "s", initialized := true,
          response_queue := [.obj [("result", .obj [("content", .arr [])])]],
          stop_event := false } 202 "r1" "add_todo" (.obj [])).1 =
      .error .noContent ∧
    (call_tool
        { session_id := some "s", initialized := true,
          response_queue := [.obj [("result", .obj [("content", .arr [.obj []])])]],
          stop_event := false } 202 "r2" "add_todo" (.obj [])).1 = .ok (.str "") := by
  constructor
  · exact (C10_no_content_and_missing_text
      { session_id := some "s", initialized := true,
        response_queue := [.obj [("result", .obj [("content", .arr [])])]],
        stop_event := false } "r1" "add_todo" (.obj [])
      [("result", .obj [("content", .arr [])])] []
      rfl (by decide) rfl rfl).2.2.1 [("content", .arr [])] rfl rfl
  · exact (C10_no_content_and_missing_text
      { session_id := some "s", initialized := true,
        response_queue := [.obj [("result", .obj [("content", .arr [.obj []])])]],
        stop_event := false } "r2" "add_todo" (.obj [])
      [("result", .obj [("content", .arr [.obj []])])] []
      rfl (by decide) rfl rfl).2.2.2 [("content", .arr [.obj []])] [] [] rfl rfl rfl
